import Mathlib

/-!
Shallow embedding of the synchronization core of `src/main.py` (midi-mixer-2.0):
the `MIDIHandler` message decoder and LED feedback, the `WindowsAudioMixer`
backend wrapper, and the `MainWindow` event handlers and update loop.
Qt widget state is reduced to the fields the handlers actually read and write
(`session_idx`, `is_muted`, the fader position); calls into the audio backend
and the LED path are recorded as an explicit `Effect` trace so that claims
about which calls are made can be stated.
-/

namespace MidiMixer2

/-- Decoded control event, mirroring the Qt signals `fader_moved`,
`knob_turned` and `button_pressed` emitted by `MIDIHandler` (main.py 150-152). -/
inductive ControlEvent where
  | faderMoved (channel : Nat) (value : ℚ)
  | knobTurned (channel : Nat) (value : ℚ)
  | buttonPressed (channel : Nat) (state : Bool)
  deriving DecidableEq

/-- Observable calls made by the `MainWindow` handlers into the audio backend
and the LED feedback path.  `sendLed c s` records a call of
`MIDIHandler.send_led_feedback(c, s)`. -/
inductive Effect where
  | setVolume (idx : Int) (value : ℚ)
  | toggleMute (idx : Int)
  | getMute (idx : Int)
  | sendLed (channel : Nat) (state : Bool)
  deriving DecidableEq

/-- An outbound MIDI control-change message (to the controller's LEDs). -/
structure MidiOutMsg where
  control : Nat
  value : Nat
  deriving DecidableEq

/-- State of `MIDIHandler` (main.py 148-162): port handles are abstracted to
open/closed booleans; the per-channel caches are the lists from `__init__`. -/
structure MIDIHandler where
  midi_in : Bool
  midi_out : Bool
  device_name : String
  fader_values : List ℚ
  button_states : List Bool
  knob_values : List ℚ
  deriving DecidableEq

/-- `MIDIHandler.__init__` (main.py 155-162). -/
def MIDIHandler.init : MIDIHandler where
  midi_in := false
  midi_out := false
  device_name := ""
  fader_values := List.replicate 8 0
  button_states := List.replicate 24 false
  knob_values := List.replicate 8 0

/-- `MIDIHandler.close` (main.py 189-196): releases both ports. -/
def MIDIHandler.close (h : MIDIHandler) : MIDIHandler :=
  { h with midi_in := false, midi_out := false }

/-- `MIDIHandler.connect_device` (main.py 175-187), successful path: closes any
prior connection, opens both ports and records the input device name.  The
per-channel caches (`fader_values`, `button_states`, `knob_values`) are not
touched by the source. -/
def connect_device (h : MIDIHandler) (input_device_name _output_device_name : String) :
    MIDIHandler :=
  let h1 := h.close
  { h1 with
    midi_in := true
    midi_out := true
    device_name := input_device_name }

/-- Normalization `raw / 127.0` used for faders and knobs (main.py 214, 221),
modelled exactly over ℚ. -/
def midiNorm (raw : Nat) : ℚ := (raw : ℚ) / 127

/-- `MIDIHandler.process_control_change` (main.py 209-233).  Returns the new
handler state and the list of events emitted (each branch emits at most one).
The button branch emits only when the decoded boolean differs from the
remembered `button_states[channel]`. -/
def process_control_change (h : MIDIHandler) (control value : Nat) :
    MIDIHandler × List ControlEvent :=
  if control ≤ 7 then
    let channel := control
    let v := midiNorm value
    ({ h with fader_values := h.fader_values.set channel v },
      [ControlEvent.faderMoved channel v])
  else if 16 ≤ control ∧ control ≤ 23 then
    let channel := control - 16
    let v := midiNorm value
    ({ h with knob_values := h.knob_values.set channel v },
      [ControlEvent.knobTurned channel v])
  else if 32 ≤ control ∧ control ≤ 39 then
    let channel := control - 32
    let state := decide (64 ≤ value)
    if h.button_states.getD channel false ≠ state then
      ({ h with button_states := h.button_states.set channel state },
        [ControlEvent.buttonPressed channel state])
    else
      (h, [])
  else
    (h, [])

/-- `MIDIHandler.send_led_feedback` (main.py 235-244): no hardware write when
the output port is closed; otherwise one control change on `32 + button_idx`
with value 127 (lit) or 0 (unlit). -/
def send_led_feedback (h : MIDIHandler) (button_idx : Nat) (state : Bool) :
    List MidiOutMsg :=
  if h.midi_out then
    [{ control := 32 + button_idx, value := if state then 127 else 0 }]
  else
    []

/-- One audio session as seen through pycaw (process name when any, plus the
`ISimpleAudioVolume` scalar volume and mute flag). -/
structure AudioSession where
  process : Option String
  volume : ℚ
  mute : Bool
  deriving DecidableEq

instance : Inhabited AudioSession :=
  ⟨{ process := none, volume := 0, mute := false }⟩

/-- State of `WindowsAudioMixer` (main.py 247-339): the session list from the
last `update_sessions` call plus the master endpoint volume/mute. -/
structure WindowsAudioMixer where
  sessions : List AudioSession
  master_volume_level : ℚ
  master_mute : Bool
  deriving DecidableEq

/-- The app list built by `WindowsAudioMixer.update_sessions` (main.py 258-271):
`(-1, "Master Volume")` first, then `(i, name)` for each session at discovery
index `i` whose process exists and has a truthy (non-empty) name. -/
def session_app_list (sessions : List AudioSession) : List (Int × String) :=
  ((-1 : Int), "Master Volume") ::
    sessions.enum.filterMap (fun p =>
      match p.2.process with
      | some name => if name ≠ "" then some (((p.1 : Int)), name) else none
      | none => none)

/-- `WindowsAudioMixer.update_sessions` (main.py 258-271): stores the freshly
enumerated sessions and returns the app list. -/
def update_sessions (m : WindowsAudioMixer) (newSessions : List AudioSession) :
    WindowsAudioMixer × List (Int × String) :=
  ({ m with sessions := newSessions }, session_app_list newSessions)

/-- `WindowsAudioMixer.set_volume` (main.py 273-287): `-1` addresses the master
endpoint; an in-range index sets that session's volume; any other index falls
through both guards and the mixer is returned unchanged (silent no-op). -/
def set_volume (m : WindowsAudioMixer) (session_idx : Int) (volume : ℚ) :
    WindowsAudioMixer :=
  if session_idx = -1 then
    { m with master_volume_level := volume }
  else if 0 ≤ session_idx ∧ session_idx < (m.sessions.length : Int) then
    let i := session_idx.toNat
    let s := m.sessions.getD i default
    { m with sessions := m.sessions.set i { s with volume := volume } }
  else
    m

/-- `WindowsAudioMixer.toggle_mute` (main.py 289-307): flips and returns the
new mute for the master or an in-range session; any other index reaches the
trailing `return False` with the mixer unchanged. -/
def toggle_mute (m : WindowsAudioMixer) (session_idx : Int) :
    WindowsAudioMixer × Bool :=
  if session_idx = -1 then
    let new_mute := !m.master_mute
    ({ m with master_mute := new_mute }, new_mute)
  else if 0 ≤ session_idx ∧ session_idx < (m.sessions.length : Int) then
    let i := session_idx.toNat
    let s := m.sessions.getD i default
    let new_mute := !s.mute
    ({ m with sessions := m.sessions.set i { s with mute := new_mute } }, new_mute)
  else
    (m, false)

/-- `WindowsAudioMixer.is_muted` (main.py 309-323): out-of-range indices reach
the trailing `return False`. -/
def is_muted (m : WindowsAudioMixer) (session_idx : Int) : Bool :=
  if session_idx = -1 then
    m.master_mute
  else if 0 ≤ session_idx ∧ session_idx < (m.sessions.length : Int) then
    (m.sessions.getD session_idx.toNat default).mute
  else
    false

/-- `WindowsAudioMixer.get_volume` (main.py 325-339): out-of-range indices
reach the trailing `return 0.0`. -/
def get_volume (m : WindowsAudioMixer) (session_idx : Int) : ℚ :=
  if session_idx = -1 then
    m.master_volume_level
  else if 0 ≤ session_idx ∧ session_idx < (m.sessions.length : Int) then
    (m.sessions.getD session_idx.toNat default).volume
  else
    0

/-- The logic-relevant state of one `ChannelStrip` (main.py 14-144):
`session_idx` is the combobox's current data (`get_selected_session`),
`is_muted` the cached mute, `fader_percent` the slider position. -/
structure ChannelStrip where
  session_idx : Option Int
  is_muted : Bool
  fader_percent : Int
  deriving DecidableEq

instance : Inhabited ChannelStrip :=
  ⟨{ session_idx := none, is_muted := false, fader_percent := 0 }⟩

/-- Python `int()` on a rational: truncation toward zero. -/
def pyInt (q : ℚ) : Int := Int.tdiv q.num (q.den : Int)

/-- `ChannelStrip.set_fader_value` (main.py 120-126): `int(value * 100)`,
clamped by the slider's 0-100 range. -/
def set_fader_value (strip : ChannelStrip) (value : ℚ) : ChannelStrip :=
  let value_percent := pyInt (value * 100)
  { strip with fader_percent := max 0 (min 100 value_percent) }

/-- `ChannelStrip.set_mute_state` (main.py 139-144). -/
def set_mute_state (strip : ChannelStrip) (muted : Bool) : ChannelStrip :=
  { strip with is_muted := muted }

/-- The logic-relevant state of `MainWindow` (main.py 522-798). -/
structure MainWindow where
  midi : MIDIHandler
  mixer : WindowsAudioMixer
  strips : List ChannelStrip
  deriving DecidableEq

/-- `MainWindow.on_midi_fader_moved` (main.py 767-776): update the strip's
fader display, then, when the strip has an assigned session, call
`set_volume` on it (this call is the recorded effect). -/
def on_midi_fader_moved (w : MainWindow) (channel : Nat) (value : ℚ) :
    MainWindow × List Effect :=
  if channel < w.strips.length then
    match (w.strips.getD channel default).session_idx with
    | some idx =>
        ({ w with
            strips := w.strips.set channel
              (set_fader_value (w.strips.getD channel default) value)
            mixer := set_volume w.mixer idx value },
          [Effect.setVolume idx value])
    | none =>
        ({ w with
            strips := w.strips.set channel
              (set_fader_value (w.strips.getD channel default) value) },
          [])
  else
    (w, [])

/-- `MainWindow.on_midi_button_pressed` (main.py 778-789): the source never
reads the `state` argument; whenever the strip has an assigned session it
calls `toggle_mute`, caches the returned mute, and calls
`send_led_feedback(channel, new_mute_state)` — both calls are recorded. -/
def on_midi_button_pressed (w : MainWindow) (channel : Nat) (state : Bool) :
    MainWindow × List Effect :=
  if channel < w.strips.length then
    match (w.strips.getD channel default).session_idx with
    | some idx =>
        ({ w with
            mixer := (toggle_mute w.mixer idx).1
            strips := w.strips.set channel
              (set_mute_state (w.strips.getD channel default) (toggle_mute w.mixer idx).2) },
          [Effect.toggleMute idx, Effect.sendLed channel (toggle_mute w.mixer idx).2])
    | none => (w, [])
  else
    (w, [])

/-- Synchronous dispatch of one emitted signal to its connected slot
(main.py 539-541): `fader_moved` and `button_pressed` are connected;
`knob_turned` is never connected to anything. -/
def dispatch_event (w : MainWindow) (e : ControlEvent) : MainWindow × List Effect :=
  match e with
  | ControlEvent.faderMoved c v => on_midi_fader_moved w c v
  | ControlEvent.buttonPressed c s => on_midi_button_pressed w c s
  | ControlEvent.knobTurned _ _ => (w, [])

/-- Processing of one pending inbound control-change message inside
`MIDIHandler.poll_messages` (main.py 198-207): decode it, then synchronously
dispatch each emitted event. -/
def poll_step (acc : MainWindow × List Effect) (msg : Nat × Nat) :
    MainWindow × List Effect :=
  let r := process_control_change acc.1.midi msg.1 msg.2
  let w1 : MainWindow := { acc.1 with midi := r.1 }
  r.2.foldl
    (fun acc2 e =>
      let r2 := dispatch_event acc2.1 e
      (r2.1, acc2.2 ++ r2.2))
    (w1, acc.2)

/-- `MIDIHandler.poll_messages` as seen from the update loop (main.py 198-207,
753-756): nothing happens when no input port is open, otherwise every pending
message is processed in arrival order. -/
def poll_messages_dispatch (w : MainWindow) (incoming : List (Nat × Nat)) :
    MainWindow × List Effect :=
  if w.midi.midi_in then incoming.foldl poll_step (w, []) else (w, [])

/-- The reconciliation body of `MainWindow.update_loop` for one strip
(main.py 759-765): for an assigned strip, read `is_muted` from the mixer (the
recorded `getMute` effect) and refresh the cached mute when it differs.  The
source performs no `toggle_mute` and no `send_led_feedback` here. -/
def reconcile_strip (m : WindowsAudioMixer) (strip : ChannelStrip) :
    ChannelStrip × List Effect :=
  match strip.session_idx with
  | some idx =>
      let muted := is_muted m idx
      (if muted ≠ strip.is_muted then set_mute_state strip muted else strip,
        [Effect.getMute idx])
  | none => (strip, [])

/-- The reconciliation half of `MainWindow.update_loop` (main.py 758-765),
applied to the state and effect trace left by polling. -/
def reconcile_pass (p : MainWindow × List Effect) : MainWindow × List Effect :=
  ({ p.1 with strips := p.1.strips.map (fun s => (reconcile_strip p.1.mixer s).1) },
    p.2 ++ p.1.strips.foldr (fun s acc => (reconcile_strip p.1.mixer s).2 ++ acc) [])

/-- `MainWindow.update_loop` (main.py 753-765): one tick — poll and dispatch
all pending messages, then reconcile every strip against the mixer. -/
def update_loop (w : MainWindow) (incoming : List (Nat × Nat)) :
    MainWindow × List Effect :=
  reconcile_pass (poll_messages_dispatch w incoming)


/-! ### Helper lemmas about list access -/

/-- Setting an in-range index and then reading it back with `getD` yields the
written element. -/
theorem getD_set_self {α : Type} (l : List α) (n : Nat) (a d : α)
    (hn : n < l.length) : (l.set n a).getD n d = a := by
  induction l generalizing n with
  | nil => simp at hn
  | cons hd tl ih =>
      cases n with
      | zero => rfl
      | succ m => exact ih m (by simpa using hn)

/-- Replacing an element by one with the same image under `f` leaves the
mapped list unchanged. -/
theorem map_set_of_eq {α β : Type} (f : α → β) (l : List α) (i : Nat) (a d : α)
    (hf : f a = f (l.getD i d)) : (l.set i a).map f = l.map f := by
  induction l generalizing i with
  | nil => simp
  | cons hd tl ih =>
      cases i with
      | zero => simpa using hf
      | succ n =>
          show f hd :: (tl.set n a).map f = f hd :: tl.map f
          rw [ih n hf]

/-- `getD` commutes with `map` at in-range indices. -/
theorem getD_map_of_lt {α β : Type} (f : α → β) (l : List α) (j : Nat)
    (d : α) (d' : β) (hj : j < l.length) :
    (l.map f).getD j d' = f (l.getD j d) := by
  induction l generalizing j with
  | nil => simp at hj
  | cons hd tl ih =>
      cases j with
      | zero => rfl
      | succ m => exact ih m (by simpa using hj)

/-! ### Characterizations of the decoder branches -/

/-- Fader branch of `process_control_change` (control numbers 0-7). -/
theorem process_fader (h : MIDIHandler) (control value : Nat)
    (h7 : control ≤ 7) :
    process_control_change h control value =
      ({ h with fader_values := h.fader_values.set control (midiNorm value) },
        [ControlEvent.faderMoved control (midiNorm value)]) := by
  unfold process_control_change
  rw [if_pos h7]

/-- Knob branch of `process_control_change` (control numbers 16-23). -/
theorem process_knob (h : MIDIHandler) (control value : Nat)
    (h16 : 16 ≤ control) (h23 : control ≤ 23) :
    process_control_change h control value =
      ({ h with knob_values := h.knob_values.set (control - 16) (midiNorm value) },
        [ControlEvent.knobTurned (control - 16) (midiNorm value)]) := by
  unfold process_control_change
  rw [if_neg (show ¬ control ≤ 7 by omega),
    if_pos (show 16 ≤ control ∧ control ≤ 23 from ⟨h16, h23⟩)]

/-- Button branch of `process_control_change` (control numbers 32-39). -/
theorem process_button (h : MIDIHandler) (control value : Nat)
    (h32 : 32 ≤ control) (h39 : control ≤ 39) :
    process_control_change h control value =
      (if h.button_states.getD (control - 32) false ≠ decide (64 ≤ value) then
        ({ h with
            button_states := h.button_states.set (control - 32) (decide (64 ≤ value)) },
          [ControlEvent.buttonPressed (control - 32) (decide (64 ≤ value))])
      else
        (h, [])) := by
  unfold process_control_change
  rw [if_neg (show ¬ control ≤ 7 by omega),
    if_neg (show ¬ (16 ≤ control ∧ control ≤ 23) by omega),
    if_pos (show 32 ≤ control ∧ control ≤ 39 from ⟨h32, h39⟩)]

/-! ### Concrete states used by witnesses and counterexamples -/

/-- A mixer whose last enumeration found no application sessions. -/
def mixer_empty : WindowsAudioMixer where
  sessions := []
  master_volume_level := 0
  master_mute := false

/-- The 8 channel strips of `MainWindow.setup_main_tab`, with the first strip
set up as given and the rest unassigned. -/
def strips8 (s : ChannelStrip) : List ChannelStrip :=
  s :: List.replicate 7 default

/-- Connected window whose first strip is assigned to the master sentinel. -/
def w_master : MainWindow where
  midi := { MIDIHandler.init with midi_in := true, midi_out := true }
  mixer := mixer_empty
  strips := strips8 { session_idx := some (-1), is_muted := false, fader_percent := 0 }

/-- Connected window whose first strip is assigned to the stale stream index 5
(no session of the last enumeration has this index). -/
def w_stale : MainWindow where
  midi := { MIDIHandler.init with midi_in := true, midi_out := true }
  mixer := mixer_empty
  strips := strips8 { session_idx := some 5, is_muted := false, fader_percent := 0 }

/-- Connected window bound to the master sentinel whose master mute was
flipped to true outside the loop (externally), cache still false. -/
def w_external : MainWindow where
  midi := { MIDIHandler.init with midi_in := true, midi_out := true }
  mixer := { sessions := [], master_volume_level := 0, master_mute := true }
  strips := strips8 { session_idx := some (-1), is_muted := false, fader_percent := 0 }

/-- One audio session backed by a process named `app.exe`. -/
def sess_app : AudioSession where
  process := some "app.exe"
  volume := 0
  mute := false

/-! ### Claims -/

/-- Claim C6: protocol decoding is exact — control numbers 0-7 decode to a
fader move on channel `n` with value `r/127` (and the decoded value is
monotonic in the raw value), 16-23 to a knob event on channel `n-16` with
value `r/127`, and 32-39 to a button state on channel `n-32` that is pressed
iff `r >= 64`. -/
theorem claim_C6 (h : MIDIHandler) (control value : Nat) :
    (control ≤ 7 → (process_control_change h control value).2
        = [ControlEvent.faderMoved control (midiNorm value)])
    ∧ (16 ≤ control → control ≤ 23 → (process_control_change h control value).2
        = [ControlEvent.knobTurned (control - 16) (midiNorm value)])
    ∧ (32 ≤ control → control ≤ 39 →
        ∀ e ∈ (process_control_change h control value).2,
          e = ControlEvent.buttonPressed (control - 32) (decide (64 ≤ value)))
    ∧ (∀ r s : Nat, r ≤ s → midiNorm r ≤ midiNorm s) := by
  refine ⟨?_, ?_, ?_, ?_⟩
  · intro h7
    rw [process_fader h control value h7]
  · intro h16 h23
    rw [process_knob h control value h16 h23]
  · intro h32 h39 e he
    rw [process_button h control value h32 h39] at he
    by_cases hst : h.button_states.getD (control - 32) false ≠ decide (64 ≤ value)
    · rw [if_pos hst] at he
      simpa using he
    · rw [if_neg hst] at he
      simp at he
  · intro r s hrs
    unfold midiNorm
    gcongr

/-- Claim C6 witness: control 3 with raw value 64 decodes to a fader move of
value `64/127`, and the decoded value is monotonic between raw 5 and raw 9. -/
theorem claim_C6_witness :
    (3 ≤ 7 ∧ (process_control_change MIDIHandler.init 3 64).2
        = [ControlEvent.faderMoved 3 (midiNorm 64)])
    ∧ (5 ≤ 9 ∧ midiNorm 5 ≤ midiNorm 9) :=
  ⟨⟨by decide, (claim_C6 MIDIHandler.init 3 64).1 (by decide)⟩,
    ⟨by decide, (claim_C6 MIDIHandler.init 3 64).2.2.2 5 9 (by decide)⟩⟩

/-- Claim C7: button debounce — two consecutive messages with the same raw
value on the same button channel emit at most one event in total, and the
first emits exactly when the decoded boolean differs from the remembered
`button_states` entry for that channel. -/
theorem claim_C7 (h : MIDIHandler) (control value : Nat)
    (h32 : 32 ≤ control) (h39 : control ≤ 39)
    (hlen : h.button_states.length = 24) :
    ((process_control_change h control value).2 ++
        (process_control_change (process_control_change h control value).1
          control value).2).length ≤ 1
    ∧ ((process_control_change h control value).2 ≠ [] ↔
        h.button_states.getD (control - 32) false ≠ decide (64 ≤ value)) := by
  have hch : control - 32 < h.button_states.length := by omega
  rw [process_button h control value h32 h39]
  by_cases hst : h.button_states.getD (control - 32) false ≠ decide (64 ≤ value)
  · rw [if_pos hst]
    rw [process_button _ control value h32 h39]
    rw [getD_set_self _ _ _ _ hch]
    rw [if_neg (show ¬ (decide (64 ≤ value) ≠ decide (64 ≤ value)) from fun hne => hne rfl)]
    exact ⟨by simp, by simpa using hst⟩
  · rw [if_neg hst]
    rw [process_button h control value h32 h39, if_neg hst]
    exact ⟨by simp, by simpa using hst⟩

/-- Claim C7 witness: from the freshly constructed handler, a press (raw 127)
on control 32 emits once and a repeat of the same raw value emits nothing. -/
theorem claim_C7_witness :
    (32 ≤ 32 ∧ 32 ≤ 39 ∧ MIDIHandler.init.button_states.length = 24)
    ∧ (((process_control_change MIDIHandler.init 32 127).2 ++
          (process_control_change (process_control_change MIDIHandler.init 32 127).1
            32 127).2).length ≤ 1
      ∧ ((process_control_change MIDIHandler.init 32 127).2 ≠ [] ↔
          MIDIHandler.init.button_states.getD (32 - 32) false ≠ decide (64 ≤ 127))) :=
  ⟨⟨by decide, by decide, by decide⟩,
    claim_C7 MIDIHandler.init 32 127 (by decide) (by decide) (by decide)⟩

/-- Claim C10: control numbers outside the three decoded ranges (8-15, 24-31,
and 40 upward) emit no event and leave the handler state — fader values, knob
values and button booleans — unchanged. -/
theorem claim_C10 (h : MIDIHandler) (control value : Nat)
    (hout : (8 ≤ control ∧ control ≤ 15) ∨ (24 ≤ control ∧ control ≤ 31)
      ∨ 40 ≤ control) :
    process_control_change h control value = (h, []) := by
  unfold process_control_change
  rw [if_neg (show ¬ control ≤ 7 by omega),
    if_neg (show ¬ (16 ≤ control ∧ control ≤ 23) by omega),
    if_neg (show ¬ (32 ≤ control ∧ control ≤ 39) by omega)]

/-- Claim C10 witness: control 10 with raw value 99 is ignored entirely. -/
theorem claim_C10_witness :
    ((8 ≤ 10 ∧ 10 ≤ 15) ∨ (24 ≤ 10 ∧ 10 ≤ 31) ∨ 40 ≤ 10)
    ∧ process_control_change MIDIHandler.init 10 99 = (MIDIHandler.init, []) :=
  ⟨Or.inl (by decide), claim_C10 MIDIHandler.init 10 99 (Or.inl (by decide))⟩

/-- Claim C8 counterexample: press button channel 0 (control 32, raw 127),
reconnect — and the first press after the successful connect emits no edge,
because `connect_device` does not clear the remembered button booleans. -/
theorem claim_C8_counterexample :
    (connect_device (process_control_change MIDIHandler.init 32 127).1
        "nanoKONTROL2 1" "nanoKONTROL2 1").button_states.getD 0 false = true
    ∧ (process_control_change
        (connect_device (process_control_change MIDIHandler.init 32 127).1
          "nanoKONTROL2 1" "nanoKONTROL2 1") 32 127).2 = [] :=
  ⟨rfl, rfl⟩

/-- Claim C8 amended: `connect_device` opens both ports and records the device
name but preserves the remembered button booleans (so a remembered pressed
state survives a reconnect and suppresses the first genuine press edge); the
booleans are all-false only at construction. -/
theorem claim_C8_amended (h : MIDIHandler) (input_name output_name : String) :
    (connect_device h input_name output_name).button_states = h.button_states
    ∧ (connect_device h input_name output_name).midi_in = true
    ∧ (connect_device h input_name output_name).midi_out = true
    ∧ MIDIHandler.init.button_states = List.replicate 24 false :=
  ⟨rfl, rfl, rfl, rfl⟩

/-- Claim C9: every enumeration result starts with the master entry carrying
the sentinel `-1`, and every later entry carries a non-negative stream index,
so the sentinel never collides with an enumerated index. -/
theorem claim_C9 (m : WindowsAudioMixer) (newSessions : List AudioSession) :
    ((update_sessions m newSessions).2).head? = some ((-1 : Int), "Master Volume")
    ∧ ∀ p ∈ ((update_sessions m newSessions).2).tail, 0 ≤ p.1 ∧ p.1 ≠ -1 := by
  constructor
  · rfl
  · intro p hp
    simp only [update_sessions, session_app_list, List.tail_cons] at hp
    rcases List.mem_filterMap.mp hp with ⟨a, _, hfa⟩
    rcases a with ⟨i, s⟩
    cases hproc : s.process with
    | none => simp [hproc] at hfa
    | some name =>
        simp only [hproc] at hfa
        by_cases hname : name ≠ ""
        · rw [if_pos hname] at hfa
          injection hfa with hfa
          subst hfa
          refine ⟨Int.natCast_nonneg i, by omega⟩
        · rw [if_neg hname] at hfa
          cases hfa

/-- Claim C9 witness: enumerating one `app.exe` session puts it in the tail
with index 0, which is non-negative and distinct from the sentinel. -/
theorem claim_C9_witness :
    (((0 : Int), "app.exe") ∈ ((update_sessions mixer_empty [sess_app]).2).tail)
    ∧ (0 ≤ (((0 : Int), "app.exe") : Int × String).1
      ∧ (((0 : Int), "app.exe") : Int × String).1 ≠ -1) :=
  ⟨by decide, (claim_C9 mixer_empty [sess_app]).2 ((0 : Int), "app.exe") (by decide)⟩


/-! ### Characterizations of the window handlers and the update loop -/

/-- The button handler on a bound slot: one `toggle_mute` call, the cache set
to its result, and one LED feedback call — independently of `state`. -/
theorem on_midi_button_pressed_bound (w : MainWindow) (channel : Nat)
    (state : Bool) (idx : Int)
    (hc : channel < w.strips.length)
    (hb : (w.strips.getD channel default).session_idx = some idx) :
    on_midi_button_pressed w channel state =
      ({ w with
          mixer := (toggle_mute w.mixer idx).1
          strips := w.strips.set channel
            (set_mute_state (w.strips.getD channel default) (toggle_mute w.mixer idx).2) },
        [Effect.toggleMute idx, Effect.sendLed channel (toggle_mute w.mixer idx).2]) := by
  unfold on_midi_button_pressed
  rw [if_pos hc, hb]

/-- Polling with no pending messages changes nothing and records no calls. -/
theorem poll_nil (w : MainWindow) : poll_messages_dispatch w [] = (w, []) := by
  unfold poll_messages_dispatch
  by_cases hin : w.midi.midi_in = true
  · rw [if_pos hin]
    rfl
  · rw [if_neg hin]

/-- The reconciliation pass written out on an explicit pair. -/
theorem reconcile_pass_pair (w : MainWindow) (effs : List Effect) :
    reconcile_pass (w, effs) =
      ({ w with strips := w.strips.map (fun s => (reconcile_strip w.mixer s).1) },
        effs ++ w.strips.foldr (fun s acc => (reconcile_strip w.mixer s).2 ++ acc) []) :=
  rfl

/-- Reconciliation of a bound strip: a `getMute` read, and a cache refresh
exactly when the read differs from the cache. -/
theorem reconcile_strip_bound (m : WindowsAudioMixer) (strip : ChannelStrip)
    (idx : Int) (hb : strip.session_idx = some idx) :
    reconcile_strip m strip =
      (if is_muted m idx ≠ strip.is_muted then set_mute_state strip (is_muted m idx)
        else strip,
        [Effect.getMute idx]) := by
  unfold reconcile_strip
  rw [hb]

/-- Every call recorded by the reconciliation pass is a `getMute` read. -/
theorem reconcile_strip_effects (m : WindowsAudioMixer) :
    ∀ (l : List ChannelStrip) (e : Effect),
      e ∈ l.foldr (fun s acc => (reconcile_strip m s).2 ++ acc) [] →
      ∃ k, e = Effect.getMute k := by
  intro l
  induction l with
  | nil =>
      intro e he
      simp at he
  | cons hd tl ih =>
      intro e he
      rw [List.foldr_cons] at he
      rcases List.mem_append.mp he with he1 | he2
      · unfold reconcile_strip at he1
        cases hcase : hd.session_idx with
        | some k =>
            rw [hcase] at he1
            exact ⟨k, by simpa using he1⟩
        | none =>
            rw [hcase] at he1
            simp at he1
      · exact ih e he2

/-- Claim C1 counterexample: slot 0 of `w_master` is bound to the master and a
falling edge (`pressed = false`) is delivered — the handler still calls
`toggle_mute` (the master mute flips to true) and still sends LED feedback,
contradicting the claim that falling edges cause neither. -/
theorem claim_C1_counterexample :
    (on_midi_button_pressed w_master 0 false).2
      = [Effect.toggleMute (-1), Effect.sendLed 0 true]
    ∧ (on_midi_button_pressed w_master 0 false).1.mixer.master_mute = true :=
  ⟨rfl, rfl⟩

/-- Claim C1 amended: the button handler never consults the pressed flag — a
`ButtonEdge` with `pressed = false` is processed exactly like a rising edge,
so `toggle_mute` and LED feedback happen on every delivered edge whose slot
is bound, falling edges included. -/
theorem claim_C1_amended (w : MainWindow) (channel : Nat) (state : Bool) :
    on_midi_button_pressed w channel state = on_midi_button_pressed w channel true :=
  rfl

/-- Claim C2 counterexample: slot 0 of `w_stale` is bound to stale index 5, so
every `set_volume` on it fails (here: silently no-ops).  After three

consecutive failing fader moves the slot is still bound to 5 and the mixer is
untouched — no failure counter, no auto-unbind, no notification. -/
theorem claim_C2_counterexample :
    ((on_midi_fader_moved (on_midi_fader_moved (on_midi_fader_moved w_stale 0 (1/2)).1
        0 (1/2)).1 0 (1/2)).1.strips.map ChannelStrip.session_idx).getD 0 none = some 5
    ∧ (on_midi_fader_moved (on_midi_fader_moved (on_midi_fader_moved w_stale 0 (1/2)).1
        0 (1/2)).1 0 (1/2)).1.mixer = w_stale.mixer
    ∧ (on_midi_fader_moved w_stale 0 (1/2)).2 = [Effect.setVolume 5 (1/2)] :=
  ⟨rfl, rfl, rfl⟩

/-- Claim C2 amended: the code keeps no per-slot failure counter — backend
failures on `set_volume`/`toggle_mute` are swallowed, and neither handler ever
changes any slot binding, no matter how many consecutive operations fail; no
"became unbound" notification exists. -/
theorem claim_C2_amended (w : MainWindow) (channel : Nat) (value : ℚ) (state : Bool) :
    (on_midi_fader_moved w channel value).1.strips.map ChannelStrip.session_idx
        = w.strips.map ChannelStrip.session_idx
    ∧ (on_midi_button_pressed w channel state).1.strips.map ChannelStrip.session_idx
        = w.strips.map ChannelStrip.session_idx := by
  constructor
  · unfold on_midi_fader_moved
    by_cases hc : channel < w.strips.length
    · rw [if_pos hc]
      cases hcase : (w.strips.getD channel default).session_idx with
      | some idx =>
          exact map_set_of_eq ChannelStrip.session_idx w.strips channel _ default rfl
      | none =>
          exact map_set_of_eq ChannelStrip.session_idx w.strips channel _ default rfl
    · rw [if_neg hc]
  · unfold on_midi_button_pressed
    by_cases hc : channel < w.strips.length
    · rw [if_pos hc]
      cases hcase : (w.strips.getD channel default).session_idx with
      | some idx =>
          exact map_set_of_eq ChannelStrip.session_idx w.strips channel _ default rfl
      | none => rfl
    · rw [if_neg hc]

/-- Claim C3 counterexample: index 5 is stale for `mixer_empty` (no sessions),
yet `set_volume` silently no-ops, `get_volume` returns the default 0,
`is_muted` returns false, and `toggle_mute` returns false without failing —
there is no `BackendError` channel at all. -/
theorem claim_C3_counterexample :
    set_volume mixer_empty 5 (1/2) = mixer_empty
    ∧ get_volume mixer_empty 5 = 0
    ∧ is_muted mixer_empty 5 = false
    ∧ toggle_mute mixer_empty 5 = (mixer_empty, false) :=
  ⟨rfl, rfl, rfl, rfl⟩

/-- Claim C3 amended: on an identifier that is neither the master sentinel nor
a valid index into the last enumeration, `set_volume` leaves the mixer
unchanged, `get_volume` returns 0, `is_muted` returns false and `toggle_mute`
returns false with the mixer unchanged — silent defaults, no error result. -/
theorem claim_C3_amended (m : WindowsAudioMixer) (idx : Int) (v : ℚ)
    (hm : idx ≠ -1)
    (hs : ¬ (0 ≤ idx ∧ idx < (m.sessions.length : Int))) :
    set_volume m idx v = m
    ∧ get_volume m idx = 0
    ∧ is_muted m idx = false
    ∧ toggle_mute m idx = (m, false) := by
  refine ⟨?_, ?_, ?_, ?_⟩ <;>
    simp [set_volume, get_volume, is_muted, toggle_mute, hm, hs]

/-- Claim C3 witness: the amended behaviour at stale index 5 on the empty
enumeration. -/
theorem claim_C3_witness :
    (((5 : Int) ≠ -1) ∧ ¬ ((0 : Int) ≤ 5 ∧ (5 : Int) < (mixer_empty.sessions.length : Int)))
    ∧ (set_volume mixer_empty 5 (1/2) = mixer_empty
      ∧ get_volume mixer_empty 5 = 0
      ∧ is_muted mixer_empty 5 = false
      ∧ toggle_mute mixer_empty 5 = (mixer_empty, false)) :=
  ⟨⟨by decide, by decide⟩, claim_C3_amended mixer_empty 5 (1/2) (by decide) (by decide)⟩

/-- Claim C4 counterexample: slot 0 of `w_stale` is bound to stale index 5, so
`toggle_mute` keeps returning false.  Two consecutive button events each call
`send_led_feedback(0, false)`: the second LED write repeats the state already
sent, which the claim says must be suppressed (the code tracks no last-sent
LED state). -/
theorem claim_C4_counterexample :
    (on_midi_button_pressed w_stale 0 true).2
      = [Effect.toggleMute 5, Effect.sendLed 0 false]
    ∧ (on_midi_button_pressed (on_midi_button_pressed w_stale 0 true).1 0 true).2
      = [Effect.toggleMute 5, Effect.sendLed 0 false]
    ∧ ((on_midi_button_pressed w_stale 0 true).1.strips.map
        ChannelStrip.is_muted).getD 0 true = false
    ∧ send_led_feedback w_stale.midi 0 false = [{ control := 32, value := 0 }] :=
  ⟨rfl, rfl, rfl, rfl⟩

/-- Claim C4 amended: `send_led_feedback` is called on every button event
whose slot is bound — always exactly one `toggle_mute` call followed by one
LED call carrying the toggle result, with no suppression against any
last-sent LED state (none is tracked). -/
theorem claim_C4_amended (w : MainWindow) (channel : Nat) (state : Bool) (idx : Int)
    (hc : channel < w.strips.length)
    (hb : (w.strips.getD channel default).session_idx = some idx) :
    (on_midi_button_pressed w channel state).2
      = [Effect.toggleMute idx, Effect.sendLed channel (toggle_mute w.mixer idx).2] := by
  rw [on_midi_button_pressed_bound w channel state idx hc hb]

/-- Claim C4 witness: the amended behaviour on `w_master`, slot 0 bound to the
master sentinel. -/
theorem claim_C4_witness :
    ((0 < w_master.strips.length)
      ∧ (w_master.strips.getD 0 default).session_idx = some (-1))
    ∧ (on_midi_button_pressed w_master 0 true).2
      = [Effect.toggleMute (-1), Effect.sendLed 0 (toggle_mute w_master.mixer (-1)).2] :=
  ⟨⟨by decide, by decide⟩, claim_C4_amended w_master 0 true (-1) (by decide) (by decide)⟩

/-- Claim C5 counterexample: in `w_external` the master mute was flipped to
true outside the loop while slot 0's cache still says false.  The next tick
(no pending messages) refreshes the cache to true and records only the
`getMute` read — no `sendLed` call is made, although the claim requires one. -/
theorem claim_C5_counterexample :
    (update_loop w_external []).2 = [Effect.getMute (-1)]
    ∧ ((update_loop w_external []).1.strips.map ChannelStrip.is_muted).getD 0 false = true :=
  ⟨rfl, rfl⟩

/-- Claim C5 amended: the reconciliation tick updates a bound slot's cached
mute to the registry value and never calls `toggle_mute` (the mixer is left
untouched) — but it also never calls `send_led_feedback`; the GUI mute button
is the only thing refreshed, no LED feedback is produced on this path. -/
theorem claim_C5_amended (w : MainWindow) (j : Nat) (idx : Int)
    (hj : j < w.strips.length)
    (hb : (w.strips.getD j default).session_idx = some idx) :
    (update_loop w []).1.mixer = w.mixer
    ∧ (∀ k, Effect.toggleMute k ∉ (update_loop w []).2)
    ∧ (∀ c s, Effect.sendLed c s ∉ (update_loop w []).2)
    ∧ ((update_loop w []).1.strips.getD j default).is_muted = is_muted w.mixer idx := by
  have hul : update_loop w [] = reconcile_pass (w, []) := by
    unfold update_loop
    rw [poll_nil]
  rw [hul, reconcile_pass_pair]
  refine ⟨rfl, ?_, ?_, ?_⟩
  · intro k hk
    rw [List.nil_append] at hk
    rcases reconcile_strip_effects w.mixer w.strips (Effect.toggleMute k) hk with ⟨k2, hk2⟩
    exact Effect.noConfusion hk2
  · intro c s hk
    rw [List.nil_append] at hk
    rcases reconcile_strip_effects w.mixer w.strips (Effect.sendLed c s) hk with ⟨k2, hk2⟩
    exact Effect.noConfusion hk2
  · show ((w.strips.map (fun s => (reconcile_strip w.mixer s).1)).getD j default).is_muted
      = is_muted w.mixer idx
    rw [getD_map_of_lt _ _ _ default _ hj]
    show ((reconcile_strip w.mixer (w.strips.getD j default)).1).is_muted = is_muted w.mixer idx
    rw [reconcile_strip_bound w.mixer (w.strips.getD j default) idx hb]
    by_cases hne : is_muted w.mixer idx ≠ (w.strips.getD j default).is_muted
    · rw [if_pos hne]
      rfl
    · rw [if_neg hne]
      exact (not_ne_iff.mp hne).symm

/-- Claim C5 witness: the amended behaviour on `w_external`, slot 0 bound to
the master sentinel whose mute changed externally. -/
theorem claim_C5_witness :
    ((0 < w_external.strips.length)
      ∧ (w_external.strips.getD 0 default).session_idx = some (-1))
    ∧ ((update_loop w_external []).1.strips.getD 0 default).is_muted
        = is_muted w_external.mixer (-1) :=
  ⟨⟨by decide, by decide⟩,
    (claim_C5_amended w_external 0 (-1) (by decide) (by decide)).2.2.2⟩

end MidiMixer2
